import Mathlib

/-!
Shallow embedding of the AION configuration model and setup-wizard engine
(crates/aion/src/config/mod.rs and crates/aion/src/tui/wizard.rs).

Rust `u32` is embedded as `Nat` (only equality against the constant 1 is
ever performed, so wrap-around is irrelevant); `Option<String>` as
`Option String`; `usize` list cursors as `Nat` (whose subtraction is
saturating, exactly like `usize::saturating_sub`).  Terminal drawing,
the animation clock (`Instant`) and raw-mode guards are I/O-only and
carry no data consulted by any transition, so the key-event dispatch of
`run` is embedded as a pure transition function over the session state.
-/

namespace Aion

/-- Provider kinds, from `enum ProviderKind` in config/mod.rs. -/
inductive ProviderKind
  | OpenAI
  | Claude
  | OpenRouter
  | Ollama
  deriving DecidableEq, Repr

/-- UI modes, from `enum UiMode` in config/mod.rs. -/
inductive UiMode
  | Tui
  | Cli
  deriving DecidableEq, Repr

/-- Provider block of the configuration, from `struct ProviderConfig`. -/
structure ProviderConfig where
  kind : ProviderKind
  model : String
  base_url : Option String
  api_key_env : Option String
  deriving DecidableEq, Repr

/-- Feature flags, from `struct Features`. -/
structure Features where
  system_scan : Bool
  web_in_terminal : Bool
  command_suggestions : Bool
  safe_execute : Bool
  deriving DecidableEq, Repr

/-- Capability flags, from `struct Capabilities`. -/
structure Capabilities where
  read_files : Bool
  write_files : Bool
  network : Bool
  run_commands : Bool
  deriving DecidableEq, Repr

/-- The configuration record, from `struct AppConfig`. -/
structure AppConfig where
  version : Nat
  language : String
  ui_mode : UiMode
  provider : ProviderConfig
  features : Features
  caps : Capabilities
  deriving DecidableEq, Repr

/-- Validation error kinds, from `enum ConfigError`. -/
inductive ConfigError
  | UnsupportedVersion (v : Nat)
  | InvalidLanguage (l : String)
  | EmptyModel
  | MissingBaseUrl
  | MissingApiKeyEnv
  deriving DecidableEq, Repr

/-- From `ProviderKind::requires_api_key`. -/
def ProviderKind.requires_api_key : ProviderKind → Bool
  | .OpenAI => true
  | .Claude => true
  | .OpenRouter => true
  | .Ollama => false

/-- From `ProviderKind::default_api_key_env`. -/
def ProviderKind.default_api_key_env : ProviderKind → Option String
  | .OpenAI => some "OPENAI_API_KEY"
  | .Claude => some "ANTHROPIC_API_KEY"
  | .OpenRouter => some "OPENROUTER_API_KEY"
  | .Ollama => none

/-- From `ProviderKind::default_base_url`. -/
def ProviderKind.default_base_url : ProviderKind → Option String
  | .OpenRouter => some "https://openrouter.ai/api/v1"
  | .Ollama => some "http://localhost:11434"
  | _ => none

/-- From `ProviderKind::default_model`. -/
def ProviderKind.default_model : ProviderKind → String
  | .OpenAI => "gpt-4.1-mini"
  | .Claude => "claude-3-5-sonnet-latest"
  | .OpenRouter => "openai/gpt-4o-mini"
  | .Ollama => "mistral"

/-- From `allowed_languages()`: a `BTreeSet` holding "en" and "ar";
only membership queries are performed on it, so a list suffices. -/
def allowed_languages : List String := ["en", "ar"]

/-- Rust `char::is_whitespace`: the Unicode White_Space property
(U+0009..U+000D, U+0020, U+0085, U+00A0, U+1680, U+2000..U+200A,
U+2028, U+2029, U+202F, U+205F, U+3000). -/
def is_rust_whitespace (c : Char) : Bool :=
  decide (c.toNat = 0x09) || decide (c.toNat = 0x0A) || decide (c.toNat = 0x0B) ||
  decide (c.toNat = 0x0C) || decide (c.toNat = 0x0D) || decide (c.toNat = 0x20) ||
  decide (c.toNat = 0x85) || decide (c.toNat = 0xA0) || decide (c.toNat = 0x1680) ||
  (decide (0x2000 ≤ c.toNat) && decide (c.toNat ≤ 0x200A)) ||
  decide (c.toNat = 0x2028) || decide (c.toNat = 0x2029) || decide (c.toNat = 0x202F) ||
  decide (c.toNat = 0x205F) || decide (c.toNat = 0x3000)

/-- Rust `str::trim`: strip leading and trailing whitespace characters.
Stated over the string's character list so that the kernel can evaluate
it (Lean's own `String.trim` is whitespace-class-incomplete for Rust and
is opaque to kernel reduction). -/
def rust_trim (s : String) : String :=
  ⟨((s.data.dropWhile is_rust_whitespace).reverse.dropWhile is_rust_whitespace).reverse⟩

/-- Rust `str::is_empty`, via the character list. -/
def str_is_empty (s : String) : Bool := s.data.isEmpty

/-- Rust `String::pop` (discarding the returned character): remove the
last character, no-op on the empty string. -/
def rust_pop (s : String) : String := ⟨s.data.dropLast⟩

/-- From `AppConfig::CURRENT_VERSION`. -/
def AppConfig.CURRENT_VERSION : Nat := 1

/-- From `AppConfig::new_default`. -/
def AppConfig.new_default : AppConfig :=
  let kind := ProviderKind.Ollama
  { version := AppConfig.CURRENT_VERSION
    language := "en"
    ui_mode := .Tui
    provider :=
      { kind := kind
        model := kind.default_model
        base_url := kind.default_base_url
        api_key_env := kind.default_api_key_env }
    features :=
      { system_scan := true
        web_in_terminal := true
        command_suggestions := true
        safe_execute := true }
    caps :=
      { read_files := true
        write_files := false
        network := true
        run_commands := false } }

/-- Rust's `opt.as_deref().unwrap_or("").trim().is_empty()`, the blank
test `validate` applies to the two optional provider fields. -/
def opt_blank (o : Option String) : Bool :=
  str_is_empty (rust_trim (o.getD ""))

/-- From `AppConfig::validate`. -/
def AppConfig.validate (c : AppConfig) : Except ConfigError Unit :=
  if c.version ≠ AppConfig.CURRENT_VERSION then
    .error (.UnsupportedVersion c.version)
  else if ¬ (allowed_languages.contains c.language) then
    .error (.InvalidLanguage c.language)
  else if str_is_empty (rust_trim c.provider.model) then
    .error .EmptyModel
  else
    match c.provider.kind with
    | .OpenRouter =>
        if opt_blank c.provider.base_url then
          .error .MissingBaseUrl
        else if opt_blank c.provider.api_key_env then
          .error .MissingApiKeyEnv
        else .ok ()
    | .Ollama =>
        if opt_blank c.provider.base_url then
          .error .MissingBaseUrl
        else .ok ()
    | .OpenAI | .Claude =>
        if opt_blank c.provider.api_key_env then
          .error .MissingApiKeyEnv
        else .ok ()

/-- From `AppConfig::set_provider_kind` (the provider-defaults transform,
called `apply_provider_defaults` in the specification). -/
def AppConfig.set_provider_kind (c : AppConfig) (kind : ProviderKind) : AppConfig :=
  { c with provider :=
      { c.provider with
          kind := kind
          model := kind.default_model
          base_url := kind.default_base_url
          api_key_env := kind.default_api_key_env } }

/-- Wizard steps, from `enum Step` in tui/wizard.rs. -/
inductive Step
  | Language
  | Provider
  | Model
  | Summary
  deriving DecidableEq, Repr

/-- From `Step::prev`. -/
def Step.prev : Step → Option Step
  | .Language => none
  | .Provider => some .Language
  | .Model => some .Provider
  | .Summary => some .Model

/-- From `Step::next`. -/
def Step.next : Step → Option Step
  | .Language => some .Provider
  | .Provider => some .Model
  | .Model => some .Summary
  | .Summary => none

/-- The key events the wizard consumes, from `crossterm::event::KeyCode`
(restricted to the variants the wizard matches on; every other key falls
into the wildcard arms, which the `Char` variant with an unmatched
character also exercises). -/
inductive KeyCode
  | Up
  | Down
  | Enter
  | Esc
  | Backspace
  | Left
  | Char (c : Char)
  deriving DecidableEq, Repr

/-- From `struct LangOption`. -/
structure LangOption where
  code : String
  name : String
  supported : Bool
  deriving DecidableEq, Repr

/-- From `language_options()` in tui/wizard.rs. -/
def language_options : List LangOption :=
  let supported := allowed_languages
  ([("en", "English"), ("ar", "العربية"), ("no", "Norsk"), ("zh", "中文"),
    ("es", "Español"), ("fr", "Français"), ("de", "Deutsch"), ("tr", "Türkçe"),
    ("ru", "Русский"), ("ja", "日本語"), ("ko", "한국어")]).map
    (fun p => { code := p.1, name := p.2, supported := supported.contains p.1 })

/-- From `provider_options()` in tui/wizard.rs. -/
def provider_options : List ProviderKind :=
  [.Ollama, .OpenAI, .Claude, .OpenRouter]

/-- Session state, from `struct UiState`.  `ratatui::ListState` carries an
`Option<usize>` selection, embedded as `Option Nat`.  The wall-clock field
`last_tick : Instant` is omitted: it is compared only against real time to
pace the cosmetic spinner and never feeds any transition or data below. -/
structure UiState where
  step : Step
  status : String
  lang_state : Option Nat
  provider_state : Option Nat
  model_input : String
  use_colors : Bool
  use_animation : Bool
  tick : Nat
  deriving DecidableEq, Repr

/-- From `UiState::new`.  Rust `position(..).unwrap_or(0)` is
`(findIdx? ..).getD 0`. -/
def UiState.new (existing : AppConfig) : UiState :=
  let langs := language_options
  let providers := provider_options
  let lang_idx := (langs.findIdx? (fun x => x.code == existing.language)).getD 0
  let provider_idx := (providers.findIdx? (fun p => p == existing.provider.kind)).getD 0
  { step := .Language
    status := "↑↓ Navigate | Enter Next | Esc/Backspace/← Back | q Quit | C Colors | A Animation"
    lang_state := some lang_idx
    provider_state := some provider_idx
    model_input := existing.provider.model
    use_colors := true
    use_animation := true
    tick := 0 }

/-- Rust `char::is_control`: true exactly on the Unicode Cc category,
U+0000..U+001F and U+007F..U+009F. -/
def isControlChar (c : Char) : Bool :=
  decide (c.toNat < 0x20) || (decide (0x7F ≤ c.toNat) && decide (c.toNat ≤ 0x9F))

/-- From `handle_language_step`.  `usize::saturating_sub 1` is Nat
subtraction; `(cur + 1).min(max)` is `Nat.min`. -/
def handle_language_step (ui : UiState) (draft : AppConfig) (code : KeyCode) :
    UiState × AppConfig :=
  let langs := language_options
  let max := langs.length - 1
  match code with
  | .Up =>
      let cur := ui.lang_state.getD 0
      ({ ui with lang_state := some (cur - 1) }, draft)
  | .Down =>
      let cur := ui.lang_state.getD 0
      ({ ui with lang_state := some (Nat.min (cur + 1) max) }, draft)
  | .Enter =>
      let idx := ui.lang_state.getD 0
      match langs.get? idx with
      | some sel =>
          if ¬ sel.supported then
            ({ ui with status := "This language is not supported yet" }, draft)
          else
            let draft := { draft with language := sel.code }
            let ui :=
              match ui.step.next with
              | some next => { ui with step := next }
              | none => ui
            ({ ui with status := "Language selected" }, draft)
      | none => (ui, draft)
  | _ => (ui, draft)

/-- From `handle_provider_step`.  Note: on Enter the source assigns only
`draft.provider.kind = kind` — it does not call
`AppConfig::set_provider_kind`. -/
def handle_provider_step (ui : UiState) (draft : AppConfig) (code : KeyCode) :
    UiState × AppConfig :=
  let providers := provider_options
  let max := providers.length - 1
  match code with
  | .Up =>
      let cur := ui.provider_state.getD 0
      ({ ui with provider_state := some (cur - 1) }, draft)
  | .Down =>
      let cur := ui.provider_state.getD 0
      ({ ui with provider_state := some (Nat.min (cur + 1) max) }, draft)
  | .Enter =>
      let idx := ui.provider_state.getD 0
      match providers.get? idx with
      | some kind =>
          let draft := { draft with provider := { draft.provider with kind := kind } }
          let ui :=
            match ui.step.next with
            | some next => { ui with step := next }
            | none => ui
          ({ ui with status := "Provider selected" }, draft)
      | none => (ui, draft)
  | _ => (ui, draft)

/-- From `handle_model_step`. -/
def handle_model_step (ui : UiState) (draft : AppConfig) (code : KeyCode) :
    UiState × AppConfig :=
  match code with
  | .Backspace =>
      let mi := rust_pop ui.model_input
      ({ ui with model_input := mi },
       { draft with provider := { draft.provider with model := mi } })
  | .Enter =>
      let trimmed := rust_trim ui.model_input
      if str_is_empty trimmed then
        ({ ui with status := "Model cannot be empty" }, draft)
      else
        let draft := { draft with provider := { draft.provider with model := trimmed } }
        let ui :=
          match ui.step.next with
          | some next => { ui with step := next }
          | none => ui
        ({ ui with status := "Model selected" }, draft)
  | .Char c =>
      if ¬ isControlChar c then
        let mi := ui.model_input.push c
        ({ ui with model_input := mi },
         { draft with provider := { draft.provider with model := mi } })
      else (ui, draft)
  | _ => (ui, draft)

/-- Outcome of dispatching one key press inside `run`'s event loop. -/
inductive KeyOutcome
  | continued (ui : UiState) (draft : AppConfig)
  | cancelled
  | saved (c : AppConfig)
  | invalid (e : ConfigError)
  deriving DecidableEq, Repr

/-- The toggle status line built by `format!("Colors: {} | Animation: {}", ..)`. -/
def toggle_status (colors anim : Bool) : String :=
  "Colors: " ++ (if colors then "ON" else "OFF") ++
  " | Animation: " ++ (if anim then "ON" else "OFF")

/-- One iteration of the key dispatch in `run` (tui/wizard.rs lines
404-459): global toggles and quit first, then back-navigation, then the
step-local handler; at Summary, Enter validates the draft and either
returns it (`saved`) or propagates the validation error (`invalid`).
Quit returns `Err("Wizard cancelled by user")`, as does back-navigation
at the first step.  The Rust `match` arms on `key.code` are tried in
order, embedded here as a chain of equality tests in the same order. -/
def process_key (ui : UiState) (draft : AppConfig) (code : KeyCode) : KeyOutcome :=
  if code = .Char 'c' ∨ code = .Char 'C' then
    .continued
      { ui with
          use_colors := !ui.use_colors
          status := toggle_status (!ui.use_colors) ui.use_animation } draft
  else if code = .Char 'a' ∨ code = .Char 'A' then
    .continued
      { ui with
          use_animation := !ui.use_animation
          status := toggle_status ui.use_colors (!ui.use_animation) } draft
  else if code = .Char 'q' then .cancelled
  else if code = .Esc ∨ code = .Backspace ∨ code = .Left ∨ code = .Char 'b' then
    match ui.step.prev with
    | some prev =>
        .continued
          { ui with
              step := prev
              status := "Back to previous step" } draft
    | none => .cancelled
  else
    match ui.step with
    | .Language =>
        let p := handle_language_step ui draft code
        .continued p.1 p.2
    | .Provider =>
        let p := handle_provider_step ui draft code
        .continued p.1 p.2
    | .Model =>
        let p := handle_model_step ui draft code
        .continued p.1 p.2
    | .Summary =>
        if code = .Enter then
          match draft.validate with
          | .ok _ => .saved draft
          | .error e => .invalid e
        else .continued ui draft

/-- Result of a whole wizard run on a finite key sequence. `pending`
means the key list was exhausted with the loop still waiting for input. -/
inductive RunResult
  | cancelled
  | saved (c : AppConfig)
  | invalid (e : ConfigError)
  | pending (ui : UiState) (draft : AppConfig)
  deriving DecidableEq, Repr

/-- The event loop of `run`, folded over a finite list of key-press
events (ticks, redraws and non-key events change no session data and are
elided). -/
def run_loop (ui : UiState) (draft : AppConfig) : List KeyCode → RunResult
  | [] => .pending ui draft
  | k :: ks =>
      match process_key ui draft k with
      | .continued ui1 draft1 => run_loop ui1 draft1 ks
      | .cancelled => .cancelled
      | .saved c => .saved c
      | .invalid e => .invalid e

/-- From `run` (tui/wizard.rs): session state is initialized from the
caller's configuration and the draft starts as `existing.clone()`;
`existing` itself is behind a shared reference and never written. -/
def run (existing : AppConfig) (keys : List KeyCode) : RunResult :=
  run_loop (UiState.new existing) existing keys

/-- From main.rs lines 85-98: the caller's variable `cfg` is replaced by
the wizard's result only on the success path; on cancellation or error
the `?` operator propagates before the assignment, leaving `cfg` as it
was. -/
def caller_config_after (cfg : AppConfig) (keys : List KeyCode) : AppConfig :=
  match run cfg keys with
  | .saved updated => updated
  | _ => cfg

deriving instance DecidableEq for Except

/-- An optional field that is present with a non-blank payload (the
spec-side reading of "present and non-blank" in claim C2). -/
def field_present_nonblank (o : Option String) : Prop :=
  ∃ s, o = some s ∧ str_is_empty (rust_trim s) = false

/-- Spec-side acceptance condition of claim C2, phrased from the claim's
words: version equals the single supported constant, language in the
allowed set, model non-blank after trimming, and the provider-kind
specific fields present and non-blank. -/
def validate_accepts_spec (c : AppConfig) : Prop :=
  c.version = 1 ∧
  c.language ∈ allowed_languages ∧
  str_is_empty (rust_trim c.provider.model) = false ∧
  (match c.provider.kind with
   | .OpenRouter =>
       field_present_nonblank c.provider.base_url ∧
       field_present_nonblank c.provider.api_key_env
   | .Ollama => field_present_nonblank c.provider.base_url
   | .OpenAI => field_present_nonblank c.provider.api_key_env
   | .Claude => field_present_nonblank c.provider.api_key_env)

/-- Replace the draft's base_url field (used to compare a blank field
with an absent one in claim C10). -/
def with_base_url (c : AppConfig) (o : Option String) : AppConfig :=
  { c with provider := { c.provider with base_url := o } }

/-- Replace the draft's api_key_env field. -/
def with_api_key_env (c : AppConfig) (o : Option String) : AppConfig :=
  { c with provider := { c.provider with api_key_env := o } }

/-- Iterate the Language-step handler over a key sequence (claim C8's
"any sequence of Up / Down presses"). -/
def fold_language (ui : UiState) (draft : AppConfig) (ks : List KeyCode) :
    UiState × AppConfig :=
  ks.foldl (fun p k => handle_language_step p.1 p.2 k) (ui, draft)

/-- Iterate the Provider-step handler over a key sequence. -/
def fold_provider (ui : UiState) (draft : AppConfig) (ks : List KeyCode) :
    UiState × AppConfig :=
  ks.foldl (fun p k => handle_provider_step p.1 p.2 k) (ui, draft)

/-- The session state reached from the default configuration after
selecting the language and the provider (two Enter presses): the wizard
sits on the Model step with the buffer holding "mistral". -/
def c3_ui : UiState :=
  match run AppConfig.new_default [.Enter, .Enter] with
  | .pending ui _ => ui
  | _ => UiState.new AppConfig.new_default

/-- The draft accompanying `c3_ui` on that same run. -/
def c3_draft : AppConfig :=
  match run AppConfig.new_default [.Enter, .Enter] with
  | .pending _ draft => draft
  | _ => AppConfig.new_default

/-- A session state sitting on the Model step with a blank (all
whitespace) input buffer. -/
def ui_model_blank : UiState :=
  { UiState.new AppConfig.new_default with
      step := Step.Model
      model_input := " " }

/-- A session state sitting on the Model step with text in the input
buffer. -/
def ui_model_typed : UiState :=
  { UiState.new AppConfig.new_default with
      step := Step.Model
      model_input := " gpt-4o " }

/-! ### Helper lemmas about `validate` -/

lemma contains_iff_mem (l : List String) (a : String) :
    l.contains a = true ↔ a ∈ l := List.elem_iff

lemma opt_blank_none : opt_blank none = true := rfl

lemma opt_blank_some (s : String) :
    opt_blank (some s) = str_is_empty (rust_trim s) := rfl

lemma opt_blank_false_iff (o : Option String) :
    opt_blank o = false ↔ field_present_nonblank o := by
  cases o with
  | none => simp [opt_blank_none, field_present_nonblank]
  | some s => simp [opt_blank_some, field_present_nonblank]

lemma opt_blank_true_iff (o : Option String) :
    opt_blank o = true ↔ ¬ field_present_nonblank o := by
  rw [← opt_blank_false_iff]
  cases opt_blank o <;> simp

lemma validate_version_ne (c : AppConfig) (h : c.version ≠ 1) :
    c.validate = .error (.UnsupportedVersion c.version) := by
  simp [AppConfig.validate, AppConfig.CURRENT_VERSION, h]

lemma validate_invalid_language (c : AppConfig) (h1 : c.version = 1)
    (h2 : c.language ∉ allowed_languages) :
    c.validate = .error (.InvalidLanguage c.language) := by
  simp [AppConfig.validate, AppConfig.CURRENT_VERSION, h1, h2]

lemma validate_empty_model (c : AppConfig) (h1 : c.version = 1)
    (h2 : c.language ∈ allowed_languages)
    (h3 : str_is_empty (rust_trim c.provider.model) = true) :
    c.validate = .error .EmptyModel := by
  simp [AppConfig.validate, AppConfig.CURRENT_VERSION, h1, h2, h3]

lemma validate_missing_base_url (c : AppConfig) (h1 : c.version = 1)
    (h2 : c.language ∈ allowed_languages)
    (h3 : str_is_empty (rust_trim c.provider.model) = false)
    (hk : c.provider.kind = .OpenRouter ∨ c.provider.kind = .Ollama)
    (hb : opt_blank c.provider.base_url = true) :
    c.validate = .error .MissingBaseUrl := by
  rcases hk with hk | hk <;>
    simp [AppConfig.validate, AppConfig.CURRENT_VERSION, h1, h2, h3, hk, hb]

lemma validate_missing_api_key_direct (c : AppConfig) (h1 : c.version = 1)
    (h2 : c.language ∈ allowed_languages)
    (h3 : str_is_empty (rust_trim c.provider.model) = false)
    (hk : c.provider.kind = .OpenAI ∨ c.provider.kind = .Claude)
    (ha : opt_blank c.provider.api_key_env = true) :
    c.validate = .error .MissingApiKeyEnv := by
  rcases hk with hk | hk <;>
    simp [AppConfig.validate, AppConfig.CURRENT_VERSION, h1, h2, h3, hk, ha]

lemma validate_missing_api_key_router (c : AppConfig) (h1 : c.version = 1)
    (h2 : c.language ∈ allowed_languages)
    (h3 : str_is_empty (rust_trim c.provider.model) = false)
    (hk : c.provider.kind = .OpenRouter)
    (hb : opt_blank c.provider.base_url = false)
    (ha : opt_blank c.provider.api_key_env = true) :
    c.validate = .error .MissingApiKeyEnv := by
  simp [AppConfig.validate, AppConfig.CURRENT_VERSION, h1, h2, h3, hk, hb, ha]

/-! ### Helper lemmas about the wizard loop and the step handlers -/

lemma run_loop_append (ks1 ks2 : List KeyCode) :
    ∀ (ui : UiState) (draft : AppConfig),
      run_loop ui draft (ks1 ++ ks2) =
        (match run_loop ui draft ks1 with
         | .pending ui1 d1 => run_loop ui1 d1 ks2
         | r => r) := by
  induction ks1 with
  | nil => intro ui draft; rfl
  | cons k ks ih =>
      intro ui draft
      simp only [List.cons_append, run_loop]
      cases process_key ui draft k <;> simp [ih]

lemma lang_step_bound (ui : UiState) (draft : AppConfig) (k : KeyCode)
    (h : ui.lang_state.getD 0 < language_options.length) :
    (handle_language_step ui draft k).1.lang_state.getD 0 <
      language_options.length := by
  cases k with
  | Up =>
      simp only [handle_language_step, Option.getD_some]
      omega
  | Down =>
      simp only [handle_language_step, Option.getD_some]
      have hL : language_options.length = 11 := by decide
      rw [hL]
      have hm : (ui.lang_state.getD 0 + 1).min (11 - 1) ≤ 11 - 1 :=
        Nat.min_le_right _ _
      omega
  | Enter =>
      simp only [handle_language_step]
      cases hq : language_options.get? (ui.lang_state.getD 0) with
      | none => simpa using h
      | some sel =>
          simp only [hq]
          split_ifs <;>
            first
              | simpa using h
              | (cases hn : ui.step.next <;> simpa [hn] using h)
  | Esc => simpa [handle_language_step] using h
  | Backspace => simpa [handle_language_step] using h
  | Left => simpa [handle_language_step] using h
  | Char c => simpa [handle_language_step] using h

lemma provider_step_bound (ui : UiState) (draft : AppConfig) (k : KeyCode)
    (h : ui.provider_state.getD 0 < provider_options.length) :
    (handle_provider_step ui draft k).1.provider_state.getD 0 <
      provider_options.length := by
  cases k with
  | Up =>
      simp only [handle_provider_step, Option.getD_some]
      omega
  | Down =>
      simp only [handle_provider_step, Option.getD_some]
      have hL : provider_options.length = 4 := by decide
      rw [hL]
      have hm : (ui.provider_state.getD 0 + 1).min (4 - 1) ≤ 4 - 1 :=
        Nat.min_le_right _ _
      omega
  | Enter =>
      simp only [handle_provider_step]
      cases hq : provider_options.get? (ui.provider_state.getD 0) with
      | none => simpa using h
      | some sel =>
          simp only [hq]
          cases hn : ui.step.next <;> simpa [hn] using h
  | Esc => simpa [handle_provider_step] using h
  | Backspace => simpa [handle_provider_step] using h
  | Left => simpa [handle_provider_step] using h
  | Char c => simpa [handle_provider_step] using h

lemma fold_language_cons (ui : UiState) (draft : AppConfig) (k : KeyCode)
    (ks : List KeyCode) :
    fold_language ui draft (k :: ks) =
      fold_language (handle_language_step ui draft k).1
        (handle_language_step ui draft k).2 ks := by
  simp [fold_language]

lemma fold_provider_cons (ui : UiState) (draft : AppConfig) (k : KeyCode)
    (ks : List KeyCode) :
    fold_provider ui draft (k :: ks) =
      fold_provider (handle_provider_step ui draft k).1
        (handle_provider_step ui draft k).2 ks := by
  simp [fold_provider]

/-! ### Claim theorems -/

/-- C9: the canonical default configuration passes `validate`: it has the
supported version, language "en" in the allowed set, provider kind Ollama
with non-empty default model "mistral" and a non-blank default base_url,
and `validate` returns Ok on it. -/
theorem c9_new_default_validates :
    AppConfig.new_default.version = AppConfig.CURRENT_VERSION ∧
    AppConfig.new_default.language = "en" ∧
    AppConfig.new_default.language ∈ allowed_languages ∧
    AppConfig.new_default.provider.kind = .Ollama ∧
    AppConfig.new_default.provider.model = "mistral" ∧
    str_is_empty (rust_trim AppConfig.new_default.provider.model) = false ∧
    opt_blank AppConfig.new_default.provider.base_url = false ∧
    AppConfig.new_default.validate = .ok () := by decide

/-- C7: the provider-defaults transform (`set_provider_kind`, the spec's
`apply_provider_defaults`) is idempotent: applying it twice with the
same kind yields exactly the configuration obtained by applying it
once. -/
theorem c7_set_provider_kind_idempotent (c : AppConfig) (k : ProviderKind) :
    (c.set_provider_kind k).set_provider_kind k = c.set_provider_kind k := rfl

/-- Witness for C7 at a concrete configuration and kind. -/
theorem c7_set_provider_kind_idempotent_witness :
    (AppConfig.new_default.set_provider_kind .OpenAI).set_provider_kind .OpenAI =
      AppConfig.new_default.set_provider_kind .OpenAI :=
  c7_set_provider_kind_idempotent AppConfig.new_default .OpenAI

/-- C1 (evidence of the divergence): starting from the default
configuration, pressing Enter (language "en"), Down, Enter on the
Provider step selects OpenAI but does not apply the provider-defaults
transform: the draft keeps model "mistral" and base_url
"http://localhost:11434" from Ollama and has api_key_env none, while
`set_provider_kind OpenAI` on the same draft would give model
"gpt-4.1-mini", base_url none and api_key_env "OPENAI_API_KEY".
Consequently completing the wizard (Enter at Model, Enter at Summary)
aborts with MissingApiKeyEnv instead of returning a configuration. -/
theorem c1_provider_enter_defaults_not_applied :
    (match run AppConfig.new_default [.Enter, .Down, .Enter] with
      | .pending ui draft =>
          (ui.step, draft.provider.kind, draft.provider.model,
           draft.provider.base_url, draft.provider.api_key_env)
      | _ => (Step.Language, ProviderKind.Ollama, "", none, none)) =
      (Step.Model, ProviderKind.OpenAI, "mistral",
       some "http://localhost:11434", none) ∧
    (AppConfig.new_default.set_provider_kind ProviderKind.OpenAI).provider.model =
      "gpt-4.1-mini" ∧
    (AppConfig.new_default.set_provider_kind ProviderKind.OpenAI).provider.base_url =
      none ∧
    (AppConfig.new_default.set_provider_kind ProviderKind.OpenAI).provider.api_key_env =
      some "OPENAI_API_KEY" ∧
    run AppConfig.new_default [.Enter, .Down, .Enter, .Enter, .Enter] =
      .invalid ConfigError.MissingApiKeyEnv := by decide

/-- C3 (counterexample): on the Model step (a state reached by a real
run, buffer "mistral"), pressing Backspace does not remove the last
character of the buffer: the run loop's back-navigation intercepts the
key before the Model-step handler, returning to the Provider step with
the buffer and the draft untouched. -/
theorem c3_backspace_counterexample :
    c3_ui.step = Step.Model ∧
    c3_ui.model_input = "mistral" ∧
    process_key c3_ui c3_draft .Backspace =
      .continued
        { c3_ui with
            step := Step.Provider
            status := "Back to previous step" } c3_draft ∧
    rust_pop "mistral" = "mistra" ∧
    ("mistral" : String) ≠ "mistra" := by decide

/-- C3 (amended): within the Model-step handler `handle_model_step`, a
printable (non-control) character appends to the buffer and control
characters are ignored, Backspace removes the last character, and every
edit copies the buffer into the draft's model field.  At the run loop,
however, Backspace on the Model step is intercepted by back-navigation
(returning to Provider with buffer and draft untouched), so it never
reaches the handler, and a character key reaches the handler only when
it is none of the globally handled keys 'c', 'C', 'a', 'A', 'q' or the
back-navigation key 'b'. -/
theorem c3_model_editing_amended :
    (∀ (ui : UiState) (draft : AppConfig) (c : Char),
      isControlChar c = false →
      handle_model_step ui draft (.Char c) =
        ({ ui with model_input := ui.model_input.push c },
         { draft with provider :=
             { draft.provider with model := ui.model_input.push c } })) ∧
    (∀ (ui : UiState) (draft : AppConfig) (c : Char),
      isControlChar c = true →
      handle_model_step ui draft (.Char c) = (ui, draft)) ∧
    (∀ (ui : UiState) (draft : AppConfig),
      handle_model_step ui draft .Backspace =
        ({ ui with model_input := rust_pop ui.model_input },
         { draft with provider :=
             { draft.provider with model := rust_pop ui.model_input } })) ∧
    (∀ (ui : UiState) (draft : AppConfig),
      ui.step = Step.Model →
      process_key ui draft .Backspace =
        .continued
          { ui with
              step := Step.Provider
              status := "Back to previous step" } draft) ∧
    (∀ (ui : UiState) (draft : AppConfig) (c : Char),
      ui.step = Step.Model →
      isControlChar c = false →
      c ≠ 'c' → c ≠ 'C' → c ≠ 'a' → c ≠ 'A' → c ≠ 'q' → c ≠ 'b' →
      process_key ui draft (.Char c) =
        .continued
          { ui with model_input := ui.model_input.push c }
          { draft with provider :=
              { draft.provider with model := ui.model_input.push c } }) := by
  refine ⟨?_, ?_, ?_, ?_, ?_⟩
  · intro ui draft c h
    simp [handle_model_step, h]
  · intro ui draft c h
    simp [handle_model_step, h]
  · intro ui draft
    rfl
  · intro ui draft h
    simp [process_key, h, Step.prev]
  · intro ui draft c hstep hctl h1 h2 h3 h4 h5 h6
    simp [process_key, hstep, handle_model_step, hctl, h1, h2, h3, h4, h5, h6]

/-- Witness for the amended C3 at a concrete Model-step state: typing
'x' appends and mirrors into the draft; Backspace navigates back. -/
theorem c3_model_editing_amended_witness :
    process_key ui_model_typed AppConfig.new_default (.Char 'x') =
      .continued
        { ui_model_typed with model_input := " gpt-4o x" }
        { AppConfig.new_default with provider :=
            { AppConfig.new_default.provider with model := " gpt-4o x" } } ∧
    process_key ui_model_typed AppConfig.new_default .Backspace =
      .continued
        { ui_model_typed with
            step := Step.Provider
            status := "Back to previous step" } AppConfig.new_default :=
  ⟨c3_model_editing_amended.2.2.2.2 ui_model_typed AppConfig.new_default 'x'
     rfl (by decide) (by decide) (by decide) (by decide) (by decide) (by decide)
     (by decide),
   c3_model_editing_amended.2.2.2.1 ui_model_typed AppConfig.new_default rfl⟩

/-- C2: `validate` accepts a configuration exactly when the version
equals the supported constant 1, the language lies in the allowed set,
the model is non-blank after trimming, and the provider-kind-specific
fields are present and non-blank (OpenRouter: base_url and api_key_env;
Ollama: base_url; OpenAI and Claude: api_key_env). -/
theorem c2_validate_iff_spec (c : AppConfig) :
    c.validate = .ok () ↔ validate_accepts_spec c := by
  obtain ⟨v, lang, um, ⟨k, m, bu, ake⟩, fs, cp⟩ := c
  unfold AppConfig.validate validate_accepts_spec AppConfig.CURRENT_VERSION
  cases k <;> dsimp only <;> split_ifs <;>
    simp_all [opt_blank_false_iff, opt_blank_true_iff]

/-- Witness for C2: the default configuration satisfies the spec-side
acceptance condition, obtained through the equivalence. -/
theorem c2_validate_iff_spec_witness :
    validate_accepts_spec AppConfig.new_default :=
  (c2_validate_iff_spec AppConfig.new_default).mp rfl

/-- C4: `validate` reports the first failing check in the fixed order
version, language, model non-blank, then per-kind field checks (with
MissingBaseUrl before MissingApiKeyEnv for OpenRouter); each case
determines the one error kind returned. -/
theorem c4_validate_error_order (c : AppConfig) :
    (c.version ≠ 1 → c.validate = .error (.UnsupportedVersion c.version)) ∧
    (c.version = 1 → c.language ∉ allowed_languages →
      c.validate = .error (.InvalidLanguage c.language)) ∧
    (c.version = 1 → c.language ∈ allowed_languages →
      str_is_empty (rust_trim c.provider.model) = true →
      c.validate = .error .EmptyModel) ∧
    (c.version = 1 → c.language ∈ allowed_languages →
      str_is_empty (rust_trim c.provider.model) = false →
      (c.provider.kind = .OpenRouter ∨ c.provider.kind = .Ollama) →
      opt_blank c.provider.base_url = true →
      c.validate = .error .MissingBaseUrl) ∧
    (c.version = 1 → c.language ∈ allowed_languages →
      str_is_empty (rust_trim c.provider.model) = false →
      (c.provider.kind = .OpenAI ∨ c.provider.kind = .Claude) →
      opt_blank c.provider.api_key_env = true →
      c.validate = .error .MissingApiKeyEnv) ∧
    (c.version = 1 → c.language ∈ allowed_languages →
      str_is_empty (rust_trim c.provider.model) = false →
      c.provider.kind = .OpenRouter →
      opt_blank c.provider.base_url = false →
      opt_blank c.provider.api_key_env = true →
      c.validate = .error .MissingApiKeyEnv) :=
  ⟨validate_version_ne c, validate_invalid_language c, validate_empty_model c,
   validate_missing_base_url c, validate_missing_api_key_direct c,
   validate_missing_api_key_router c⟩

/-- Witness for C4: each error kind at a concrete configuration, in the
claimed precedence. -/
theorem c4_validate_error_order_witness :
    ({ AppConfig.new_default with version := 2 } : AppConfig).validate =
      .error (.UnsupportedVersion 2) ∧
    ({ AppConfig.new_default with language := "fr" } : AppConfig).validate =
      .error (.InvalidLanguage "fr") ∧
    ({ AppConfig.new_default with provider := { AppConfig.new_default.provider with model := "  " } } : AppConfig).validate =
      .error .EmptyModel ∧
    ({ AppConfig.new_default with provider := { AppConfig.new_default.provider with base_url := none } } : AppConfig).validate =
      .error .MissingBaseUrl ∧
    ({ AppConfig.new_default with provider := { AppConfig.new_default.provider with kind := .OpenAI } } : AppConfig).validate =
      .error .MissingApiKeyEnv ∧
    ({ AppConfig.new_default with provider := { AppConfig.new_default.provider with kind := .OpenRouter } } : AppConfig).validate =
      .error .MissingApiKeyEnv :=
  ⟨(c4_validate_error_order _).1 (by decide),
   (c4_validate_error_order _).2.1 (by decide) (by decide),
   (c4_validate_error_order _).2.2.1 (by decide) (by decide) (by decide),
   (c4_validate_error_order _).2.2.2.1 (by decide) (by decide) (by decide)
     (Or.inr (by decide)) (by decide),
   (c4_validate_error_order _).2.2.2.2.1 (by decide) (by decide) (by decide)
     (Or.inl (by decide)) (by decide),
   (c4_validate_error_order _).2.2.2.2.2 (by decide) (by decide) (by decide)
     (by decide) (by decide) (by decide)⟩

/-- C10: `validate` treats a present-but-blank optional field exactly
like an absent one: substituting `some s` (with s blank) for `none` in
base_url or api_key_env never changes the result, and for the kinds
requiring the field the check fails with the corresponding Missing
error once the earlier checks pass. -/
theorem c10_blank_equals_absent (c : AppConfig) (s : String)
    (hs : str_is_empty (rust_trim s) = true) :
    (with_base_url c (some s)).validate = (with_base_url c none).validate ∧
    (with_api_key_env c (some s)).validate = (with_api_key_env c none).validate ∧
    (c.version = 1 → c.language ∈ allowed_languages →
      str_is_empty (rust_trim c.provider.model) = false →
      (c.provider.kind = .OpenRouter ∨ c.provider.kind = .Ollama) →
      c.provider.base_url = some s →
      c.validate = .error .MissingBaseUrl) ∧
    (c.version = 1 → c.language ∈ allowed_languages →
      str_is_empty (rust_trim c.provider.model) = false →
      (c.provider.kind = .OpenAI ∨ c.provider.kind = .Claude) →
      c.provider.api_key_env = some s →
      c.validate = .error .MissingApiKeyEnv) ∧
    (c.version = 1 → c.language ∈ allowed_languages →
      str_is_empty (rust_trim c.provider.model) = false →
      c.provider.kind = .OpenRouter →
      opt_blank c.provider.base_url = false →
      c.provider.api_key_env = some s →
      c.validate = .error .MissingApiKeyEnv) := by
  have hb : opt_blank (some s) = true := by rw [opt_blank_some]; exact hs
  refine ⟨?_, ?_, ?_, ?_, ?_⟩
  · obtain ⟨v, lang, um, ⟨k, m, bu, ake⟩, fs, cp⟩ := c
    unfold with_base_url AppConfig.validate
    cases k <;> dsimp only <;> simp [hb, opt_blank_none]
  · obtain ⟨v, lang, um, ⟨k, m, bu, ake⟩, fs, cp⟩ := c
    unfold with_api_key_env AppConfig.validate
    cases k <;> dsimp only <;> simp [hb, opt_blank_none]
  · intro h1 h2 h3 hk hbu
    exact validate_missing_base_url c h1 h2 h3 hk (by rw [hbu]; exact hb)
  · intro h1 h2 h3 hk ha
    exact validate_missing_api_key_direct c h1 h2 h3 hk (by rw [ha]; exact hb)
  · intro h1 h2 h3 hk hbu ha
    exact validate_missing_api_key_router c h1 h2 h3 hk hbu (by rw [ha]; exact hb)

/-- Witness for C10 with the whitespace string " " on the default
configuration. -/
theorem c10_blank_equals_absent_witness :
    (with_base_url AppConfig.new_default (some " ")).validate =
      (with_base_url AppConfig.new_default none).validate ∧
    (with_base_url AppConfig.new_default (some " ")).validate =
      .error .MissingBaseUrl :=
  ⟨(c10_blank_equals_absent AppConfig.new_default " " (by decide)).1,
   (c10_blank_equals_absent (with_base_url AppConfig.new_default (some " ")) " "
      (by decide)).2.2.1 (by decide) (by decide) (by decide)
      (Or.inr (by decide)) (by decide)⟩

/-- C6: on the Model step, Enter with a buffer that trims to empty sets
the "cannot be empty" status, keeps the step at Model and leaves the
draft untouched; Enter with a non-blank buffer stores the trimmed value
into the draft's model field and advances to Summary. -/
theorem c6_model_enter (ui : UiState) (draft : AppConfig) (h : ui.step = Step.Model) :
    (str_is_empty (rust_trim ui.model_input) = true →
      handle_model_step ui draft .Enter =
        ({ ui with status := "Model cannot be empty" }, draft)) ∧
    (str_is_empty (rust_trim ui.model_input) = false →
      handle_model_step ui draft .Enter =
        ({ ui with
             step := Step.Summary
             status := "Model selected" },
         { draft with provider :=
             { draft.provider with model := rust_trim ui.model_input } })) := by
  constructor
  · intro he
    simp [handle_model_step, he]
  · intro he
    simp [handle_model_step, he, h, Step.next]

/-- Witness for C6 at concrete Model-step states with a blank and a
non-blank buffer. -/
theorem c6_model_enter_witness :
    handle_model_step ui_model_blank AppConfig.new_default .Enter =
      ({ ui_model_blank with status := "Model cannot be empty" },
       AppConfig.new_default) ∧
    handle_model_step ui_model_typed AppConfig.new_default .Enter =
      ({ ui_model_typed with
           step := Step.Summary
           status := "Model selected" },
       { AppConfig.new_default with provider :=
           { AppConfig.new_default.provider with model := "gpt-4o" } }) :=
  ⟨(c6_model_enter ui_model_blank AppConfig.new_default rfl).1 (by decide),
   (c6_model_enter ui_model_typed AppConfig.new_default rfl).2 (by decide)⟩

/-- C5: cancellation never touches the caller's configuration: the quit
key cancels from any state, a back-navigation key at the Language step
cancels, both lift to whole runs, and on every cancelled run the
caller's configuration value is unchanged (main.rs only overwrites it
on the success path). -/
theorem c5_cancellation_frame :
    (∀ (ui : UiState) (draft : AppConfig),
      process_key ui draft (.Char 'q') = .cancelled) ∧
    (∀ (ui : UiState) (draft : AppConfig) (k : KeyCode),
      ui.step = Step.Language →
      (k = .Esc ∨ k = .Backspace ∨ k = .Left ∨ k = .Char 'b') →
      process_key ui draft k = .cancelled) ∧
    (∀ (cfg : AppConfig) (keys : List KeyCode) (ui : UiState) (draft : AppConfig),
      run cfg keys = .pending ui draft →
      run cfg (keys ++ [.Char 'q']) = .cancelled) ∧
    (∀ (cfg : AppConfig) (keys : List KeyCode) (ui : UiState) (draft : AppConfig)
       (k : KeyCode),
      run cfg keys = .pending ui draft →
      ui.step = Step.Language →
      (k = .Esc ∨ k = .Backspace ∨ k = .Left ∨ k = .Char 'b') →
      run cfg (keys ++ [k]) = .cancelled) ∧
    (∀ (cfg : AppConfig) (keys : List KeyCode),
      run cfg keys = .cancelled → caller_config_after cfg keys = cfg) := by
  have hq : ∀ (ui : UiState) (draft : AppConfig),
      process_key ui draft (.Char 'q') = .cancelled := by
    intro ui draft
    unfold process_key
    rw [if_neg (by decide), if_neg (by decide), if_pos rfl]
  have hback : ∀ (ui : UiState) (draft : AppConfig) (k : KeyCode),
      ui.step = Step.Language →
      (k = .Esc ∨ k = .Backspace ∨ k = .Left ∨ k = .Char 'b') →
      process_key ui draft k = .cancelled := by
    intro ui draft k hstep hk
    rcases hk with rfl | rfl | rfl | rfl <;>
      (unfold process_key
       rw [if_neg (by decide), if_neg (by decide), if_neg (by decide),
         if_pos (by decide)]
       simp [hstep, Step.prev])
  refine ⟨hq, hback, ?_, ?_, ?_⟩
  · intro cfg keys ui draft h
    unfold run at h ⊢
    rw [run_loop_append, h]
    simp [run_loop, hq]
  · intro cfg keys ui draft k h hstep hk
    unfold run at h ⊢
    rw [run_loop_append, h]
    simp [run_loop, hback ui draft k hstep hk]
  · intro cfg keys h
    simp [caller_config_after, h]

/-- Witness for C5: quitting immediately, and backing out of the first
step, cancel a concrete run and leave the caller's configuration
unchanged. -/
theorem c5_cancellation_frame_witness :
    process_key (UiState.new AppConfig.new_default) AppConfig.new_default
      (.Char 'q') = .cancelled ∧
    run AppConfig.new_default [.Char 'q'] = .cancelled ∧
    run AppConfig.new_default [.Backspace] = .cancelled ∧
    caller_config_after AppConfig.new_default [.Char 'q'] = AppConfig.new_default :=
  ⟨c5_cancellation_frame.1 (UiState.new AppConfig.new_default) AppConfig.new_default,
   c5_cancellation_frame.2.2.1 AppConfig.new_default [] (UiState.new AppConfig.new_default)
     AppConfig.new_default rfl,
   c5_cancellation_frame.2.2.2.1 AppConfig.new_default [] (UiState.new AppConfig.new_default)
     AppConfig.new_default .Backspace rfl rfl (Or.inr (Or.inl rfl)),
   c5_cancellation_frame.2.2.2.2 AppConfig.new_default [.Char 'q']
     (c5_cancellation_frame.2.2.1 AppConfig.new_default []
       (UiState.new AppConfig.new_default) AppConfig.new_default rfl)⟩

/-- C8: on the Language and Provider steps the cursor is clamped: from
any in-bounds position every key (and any key sequence) keeps the
selected index within [0, length-1]; Up at index 0 stays at 0 and Down
at the last index stays at the last index (no wraparound). -/
theorem c8_cursor_clamped :
    (∀ (ui : UiState) (draft : AppConfig) (k : KeyCode),
      ui.lang_state.getD 0 < language_options.length →
      (handle_language_step ui draft k).1.lang_state.getD 0 <
        language_options.length) ∧
    (∀ (ui : UiState) (draft : AppConfig) (k : KeyCode),
      ui.provider_state.getD 0 < provider_options.length →
      (handle_provider_step ui draft k).1.provider_state.getD 0 <
        provider_options.length) ∧
    (∀ (ui : UiState) (draft : AppConfig) (ks : List KeyCode),
      ui.lang_state.getD 0 < language_options.length →
      (fold_language ui draft ks).1.lang_state.getD 0 <
        language_options.length) ∧
    (∀ (ui : UiState) (draft : AppConfig) (ks : List KeyCode),
      ui.provider_state.getD 0 < provider_options.length →
      (fold_provider ui draft ks).1.provider_state.getD 0 <
        provider_options.length) ∧
    (∀ (ui : UiState) (draft : AppConfig),
      ui.lang_state = some 0 →
      (handle_language_step ui draft .Up).1.lang_state = some 0) ∧
    (∀ (ui : UiState) (draft : AppConfig),
      ui.lang_state = some (language_options.length - 1) →
      (handle_language_step ui draft .Down).1.lang_state =
        some (language_options.length - 1)) ∧
    (∀ (ui : UiState) (draft : AppConfig),
      ui.provider_state = some 0 →
      (handle_provider_step ui draft .Up).1.provider_state = some 0) ∧
    (∀ (ui : UiState) (draft : AppConfig),
      ui.provider_state = some (provider_options.length - 1) →
      (handle_provider_step ui draft .Down).1.provider_state =
        some (provider_options.length - 1)) := by
  have hfl : ∀ (ks : List KeyCode) (ui : UiState) (draft : AppConfig),
      ui.lang_state.getD 0 < language_options.length →
      (fold_language ui draft ks).1.lang_state.getD 0 <
        language_options.length := by
    intro ks
    induction ks with
    | nil => intro ui draft h; simpa [fold_language] using h
    | cons k ks ih =>
        intro ui draft h
        rw [fold_language_cons]
        exact ih _ _ (lang_step_bound ui draft k h)
  have hfp : ∀ (ks : List KeyCode) (ui : UiState) (draft : AppConfig),
      ui.provider_state.getD 0 < provider_options.length →
      (fold_provider ui draft ks).1.provider_state.getD 0 <
        provider_options.length := by
    intro ks
    induction ks with
    | nil => intro ui draft h; simpa [fold_provider] using h
    | cons k ks ih =>
        intro ui draft h
        rw [fold_provider_cons]
        exact ih _ _ (provider_step_bound ui draft k h)
  refine ⟨fun ui draft k h => lang_step_bound ui draft k h,
          fun ui draft k h => provider_step_bound ui draft k h,
          fun ui draft ks h => hfl ks ui draft h,
          fun ui draft ks h => hfp ks ui draft h,
          ?_, ?_, ?_, ?_⟩
  · intro ui draft h
    simp [handle_language_step, h]
  · intro ui draft h
    simp [handle_language_step, h]
  · intro ui draft h
    simp [handle_provider_step, h]
  · intro ui draft h
    simp [handle_provider_step, h]

/-- Witness for C8: a concrete navigation sequence stays in bounds and
Up at index 0 stays at 0 on the provider list. -/
theorem c8_cursor_clamped_witness :
    (fold_language (UiState.new AppConfig.new_default) AppConfig.new_default
        [.Up, .Up, .Down, .Down, .Down]).1.lang_state.getD 0 <
      language_options.length ∧
    (handle_provider_step (UiState.new AppConfig.new_default)
        AppConfig.new_default .Up).1.provider_state = some 0 :=
  ⟨c8_cursor_clamped.2.2.1 (UiState.new AppConfig.new_default)
     AppConfig.new_default [.Up, .Up, .Down, .Down, .Down] (by decide),
   c8_cursor_clamped.2.2.2.2.2.2.1 (UiState.new AppConfig.new_default)
     AppConfig.new_default rfl⟩

end Aion

